import Mathlib

/-!
# ClawRouter — formal model of the routing core

A shallow embedding of the ClawRouter routing engine:

* `src/router/rules.ts`    — weighted rule classifier (`classifyByRules`,
  `calibrateConfidence`, dimension scorers);
* `src/router/llm-classifier.ts` — LLM fallback classifier (`classifyByLLM`,
  `parseTier`);
* `src/session.ts`         — session store state machine (`setSession`,
  `touchSession`, `recordRequestHash`, `escalateSession`,
  `hashRequestContent`);
* the router entry point (`route`), and the model selector interface
  (`selectModel`, `filterByToolCalling`; the selector implementation file is
  not part of the provided sources, so those two are modelled from the spec
  and the selector unit tests).

JavaScript numbers are modelled as `ℚ` where the code only does field
arithmetic and comparisons, and as `ℝ` where it evaluates the exponential
function (`Math.exp` in `calibrateConfidence`).  Strings are Lean `String`s;
`text.includes(...)` is substring containment on the underlying character
lists.  The mutable `Map<string, SessionEntry>` is an association list with
first-match lookup, and every mutating method becomes a pure function from
store to store.
-/

namespace ClawRouter

/-! ## Basic string helpers (JS semantics) -/

/-- JS `haystack.includes(needle)`: substring containment. -/
def jsIncludes (haystack needle : String) : Bool :=
  decide (List.IsInfix needle.data haystack.data)

/-- JS `toLowerCase()` on the ASCII range: lower-case every character. -/
def jsToLower (s : String) : String := ⟨s.data.map Char.toLower⟩

/-- JS `toUpperCase()` on the ASCII range: upper-case every character. -/
def jsToUpper (s : String) : String := ⟨s.data.map Char.toUpper⟩

/-- The character class of the JS regex `\s` (whitespace), as used by
`String.prototype.trim` and `replace(/\s+/g, " ")`. -/
def isWsJS (c : Char) : Bool :=
  c = ' ' || c = '\t' || c = '\n' || c = '\r' || c.val = 11 || c.val = 12 ||
  c.val = 160 || c.val = 0x1680 || (0x2000 ≤ c.val && c.val ≤ 0x200A) ||
  c.val = 0x2028 || c.val = 0x2029 || c.val = 0x202F || c.val = 0x205F ||
  c.val = 0x3000 || c.val = 0xFEFF

/-- `content.replace(/\s+/g, " ")`: collapse every whitespace run to a single
space.  The boolean argument records whether the previous character belonged
to a whitespace run. -/
def collapseWsAux : Bool → List Char → List Char
  | _, [] => []
  | prevWs, c :: rest =>
    if isWsJS c then
      if prevWs then collapseWsAux true rest
      else ' ' :: collapseWsAux true rest
    else c :: collapseWsAux false rest

/-- JS `String.prototype.trim`: strip leading and trailing whitespace. -/
def trimJs (l : List Char) : List Char :=
  ((l.dropWhile isWsJS).reverse.dropWhile isWsJS).reverse

/-- JS `Array.prototype.indexOf` on a list of strings: index of the first
occurrence, `-1` if absent. -/
def jsIndexOf : List String → String → Int
  | [], _ => -1
  | a :: rest, x =>
    if a = x then 0
    else
      let r := jsIndexOf rest x
      if r < 0 then -1 else r + 1

/-! ## Tiers (`src/router/types.ts`) -/

/-- `type Tier = "SIMPLE" | "MEDIUM" | "COMPLEX" | "REASONING"`. -/
inductive Tier where
  | SIMPLE
  | MEDIUM
  | COMPLEX
  | REASONING
deriving DecidableEq, Repr

/-- Tier name as the string literal used throughout the TS sources. -/
def Tier.str : Tier → String
  | .SIMPLE => "SIMPLE"
  | .MEDIUM => "MEDIUM"
  | .COMPLEX => "COMPLEX"
  | .REASONING => "REASONING"

/-! ## Session store (`src/session.ts`) -/

/-- `type SessionEntry` from `src/session.ts`.  Timestamps are abstract `Nat`
ticks (the code uses `Date.now()` milliseconds). -/
structure SessionEntry where
  model : String
  tier : String
  createdAt : Nat
  lastUsedAt : Nat
  requestCount : Nat
  recentHashes : List String
  strikes : Nat
  escalated : Bool
deriving DecidableEq, Repr

/-- The `Map<string, SessionEntry>` of `SessionStore`, as an association list
with first-match lookup (a JS `Map` has unique keys). -/
abbrev Store := List (String × SessionEntry)

/-- `this.sessions.get(sessionId)`. -/
def lookupS (s : Store) (id : String) : Option SessionEntry :=
  (List.find? (fun p => p.1 = id) s).map (fun p => p.2)

/-- In-place mutation of the entry stored under `id` (JS mutates the entry
object returned by `get`); entries under other keys are untouched. -/
def updateS (s : Store) (id : String) (f : SessionEntry → SessionEntry) : Store :=
  s.map (fun p => if p.1 = id then (p.1, f p.2) else p)

/-- `SessionStore.setSession` (src/session.ts lines 81-109).  `enabled` is
`this.config.enabled`; `now` is `Date.now()`. -/
def setSession (enabled : Bool) (s : Store) (id model tier : String) (now : Nat) : Store :=
  if enabled = false ∨ id = "" then s
  else
    match lookupS s id with
    | some _ =>
      updateS s id (fun e =>
        let e1 := { e with lastUsedAt := now, requestCount := e.requestCount + 1 }
        if e.model ≠ model then { e1 with model := model, tier := tier } else e1)
    | none =>
      s ++ [(id, { model := model, tier := tier, createdAt := now, lastUsedAt := now,
                   requestCount := 1, recentHashes := [], strikes := 0, escalated := false })]

/-- `SessionStore.touchSession` (src/session.ts lines 114-124). -/
def touchSession (enabled : Bool) (s : Store) (id : String) (now : Nat) : Store :=
  if enabled = false ∨ id = "" then s
  else
    match lookupS s id with
    | some _ =>
      updateS s id (fun e => { e with lastUsedAt := now, requestCount := e.requestCount + 1 })
    | none => s

/-- `SessionStore.recordRequestHash` (src/session.ts lines 169-186).  Returns
the boolean result together with the updated store. -/
def recordRequestHash (s : Store) (id hash : String) : Bool × Store :=
  match lookupS s id with
  | none => (false, s)
  | some e =>
    -- prev.length > 0 && prev[prev.length - 1] === hash
    let strikes' := if e.recentHashes.getLast? = some hash then e.strikes + 1 else 0
    let pushed := e.recentHashes ++ [hash]
    -- entry.recentHashes.push(hash); if (length > 3) shift()
    let hashes' := if pushed.length > 3 then pushed.tail else pushed
    (decide (2 ≤ strikes') && !e.escalated,
     updateS s id (fun e0 => { e0 with strikes := strikes', recentHashes := hashes' }))

/-- One tier's `{ primary: string; fallback: string[] }`. -/
structure TierConfigJs where
  primary : String
  fallback : List String
deriving DecidableEq, Repr

/-- `const TIER_ORDER = ["SIMPLE", "MEDIUM", "COMPLEX", "REASONING"]`. -/
def TIER_ORDER : List String := ["SIMPLE", "MEDIUM", "COMPLEX", "REASONING"]

/-- `SessionStore.escalateSession` (src/session.ts lines 191-212).
`tierConfigs` is the `Record<string, {primary, fallback}>` argument, modelled
as a partial lookup. -/
def escalateSession (s : Store) (id : String) (tierConfigs : String → Option TierConfigJs) :
    Option (String × String) × Store :=
  match lookupS s id with
  | none => (none, s)
  | some e =>
    let currentIdx := jsIndexOf TIER_ORDER e.tier
    if currentIdx < 0 ∨ currentIdx ≥ (TIER_ORDER.length : Int) - 1 then (none, s)
    else
      let nextTier := TIER_ORDER.getD (currentIdx.toNat + 1) ""
      match tierConfigs nextTier with
      | none => (none, s)
      | some nextConfig =>
        (some (nextConfig.primary, nextTier),
         updateS s id (fun e0 =>
           { e0 with model := nextConfig.primary, tier := nextTier,
                     strikes := 0, escalated := true }))

/-- Rank of a tier string in `TIER_ORDER` (`-1` for a string that is not a
tier name, mirroring `indexOf`). -/
def tierRank (t : String) : Int := jsIndexOf TIER_ORDER t

/-- One abstract `SessionStore` mutation, for stating store invariants over
operation sequences. -/
inductive SOp where
  | set (id model tier : String) (now : Nat)
  | touch (id : String) (now : Nat)
  | record (id hash : String)
  | escalate (id : String) (cfgs : String → Option TierConfigJs)

/-- Whether the operation is a `setSession` call. -/
def SOp.isSet : SOp → Bool
  | .set _ _ _ _ => true
  | _ => false

/-- Interpret one operation on the store. -/
def SOp.apply (enabled : Bool) (s : Store) : SOp → Store
  | .set id model tier now => setSession enabled s id model tier now
  | .touch id now => touchSession enabled s id now
  | .record id hash => (recordRequestHash s id hash).2
  | .escalate id cfgs => (escalateSession s id cfgs).2

/-- Run a sequence of operations left to right. -/
def applyOps (enabled : Bool) (s : Store) (ops : List SOp) : Store :=
  ops.foldl (fun st op => SOp.apply enabled st op) s

/-- `hashRequestContent`'s normalization step (src/session.ts line 270):
`lastUserContent.replace(/\s+/g, " ").trim().slice(0, 500)`. -/
def normalizeContent (s : String) : String :=
  ⟨(trimJs (collapseWsAux false s.data)).take 500⟩

/-- JS `toolCallNames.sort()`: sort lexicographically. -/
def sortStrings (l : List String) : List String :=
  List.insertionSort (fun a b : String => a ≤ b) l

/-- `hashRequestContent` (src/session.ts lines 269-276).  The SHA-256 hex
digest is an external primitive, passed in as `sha256hex`; the function
truncates its output to 12 characters.  A missing `toolCallNames` argument
behaves like the empty list (both are falsy in `toolCallNames?.length`). -/
def hashRequestContent (sha256hex : String → String)
    (lastUserContent : String) (toolCallNames : List String) : String :=
  let normalized := normalizeContent lastUserContent
  let toolSuffix :=
    if toolCallNames.isEmpty then ""
    else "|tools:" ++ String.intercalate "," (sortStrings toolCallNames)
  (sha256hex (normalized ++ toolSuffix)).take 12

/-! ## Rule classifier (`src/router/rules.ts`) -/

/-- `{ name, score, signal }` returned by every dimension scorer. -/
structure DimensionScore where
  name : String
  score : ℚ
  signal : Option String
deriving DecidableEq, Repr

/-- `config.tokenCountThresholds`. -/
structure TokenThresholds where
  simple : Nat
  complex : Nat
deriving DecidableEq, Repr

/-- `{ low, high }` match-count thresholds for `scoreKeywordMatch`. -/
structure KwThresholds where
  low : Nat
  high : Nat
deriving DecidableEq, Repr

/-- `{ none, low, high }` scores for `scoreKeywordMatch`. -/
structure KwScores where
  none : ℚ
  low : ℚ
  high : ℚ
deriving DecidableEq, Repr

/-- `config.tierBoundaries`. -/
structure TierBoundaries where
  simpleMedium : ℚ
  mediumComplex : ℚ
  complexReasoning : ℚ
deriving DecidableEq, Repr

/-- The `ScoringConfig` consumed by `classifyByRules` (fields as read by
`src/router/rules.ts`).  `dimensionWeights` is a `Record<string, number>`;
a missing key reads as `undefined`, hence `Option`. -/
structure ScoringConfig where
  tokenCountThresholds : TokenThresholds
  codeKeywords : List String
  reasoningKeywords : List String
  technicalKeywords : List String
  creativeKeywords : List String
  simpleKeywords : List String
  imperativeVerbs : List String
  constraintIndicators : List String
  outputFormatKeywords : List String
  referenceKeywords : List String
  negationKeywords : List String
  domainSpecificKeywords : List String
  agenticTaskKeywords : List String
  dimensionWeights : String → Option ℚ
  tierBoundaries : TierBoundaries
  confidenceSteepness : ℝ
  confidenceThreshold : ℝ

/-- `ScoringResult` as produced by the v2 classifier. -/
structure ScoringResult where
  score : ℚ
  tier : Option Tier
  confidence : ℝ
  signals : List String
  agenticScore : ℚ
  dimensions : List DimensionScore

/-- `scoreTokenCount` (rules.ts lines 18-29). -/
def scoreTokenCount (estimatedTokens : Nat) (thresholds : TokenThresholds) : DimensionScore :=
  if estimatedTokens < thresholds.simple then
    { name := "tokenCount", score := -1,
      signal := some ("short (" ++ toString estimatedTokens ++ " tokens)") }
  else if estimatedTokens > thresholds.complex then
    { name := "tokenCount", score := 1,
      signal := some ("long (" ++ toString estimatedTokens ++ " tokens)") }
  else { name := "tokenCount", score := 0, signal := none }

/-- `scoreKeywordMatch` (rules.ts lines 31-55). -/
def scoreKeywordMatch (text : String) (keywords : List String) (name signalLabel : String)
    (thresholds : KwThresholds) (scores : KwScores) : DimensionScore :=
  let matched := keywords.filter (fun kw => jsIncludes text (jsToLower kw))
  if matched.length ≥ thresholds.high then
    { name := name, score := scores.high,
      signal := some (signalLabel ++ " (" ++ String.intercalate ", " (matched.take 3) ++ ")") }
  else if matched.length ≥ thresholds.low then
    { name := name, score := scores.low,
      signal := some (signalLabel ++ " (" ++ String.intercalate ", " (matched.take 3) ++ ")") }
  else { name := name, score := scores.none, signal := none }

/-- Regex `/first.*then/i` on the (already lower-cased) text: `"first"` occurs
and `"then"` occurs at or after the end of that occurrence. -/
def matchFirstThen : List Char → Bool
  | [] => false
  | c :: rest =>
    if List.isPrefixOf "first".data (c :: rest) then
      decide (List.IsInfix "then".data ((c :: rest).drop 5))
    else matchFirstThen rest

/-- Regex `/step \d/i`: the substring `"step "` followed by a digit. -/
def matchStepDigit : List Char → Bool
  | [] => false
  | c :: rest =>
    (List.isPrefixOf "step ".data (c :: rest) &&
      (match (c :: rest).drop 5 with
       | d :: _ => d.isDigit
       | [] => false)) ||
    matchStepDigit rest

/-- Regex `/\d\.\s/`: a digit, a period, then a whitespace character. -/
def matchNumberedItem : List Char → Bool
  | a :: b :: c :: rest =>
    (a.isDigit && b = '.' && isWsJS c) || matchNumberedItem (b :: c :: rest)
  | _ => false

/-- `scoreMultiStep` (rules.ts lines 57-64).  `hits.length > 0` iff one of the
three patterns matches. -/
def scoreMultiStep (text : String) : DimensionScore :=
  if matchFirstThen text.data || matchStepDigit text.data || matchNumberedItem text.data then
    { name := "multiStepPatterns", score := 1/2, signal := some "multi-step" }
  else { name := "multiStepPatterns", score := 0, signal := none }

/-- `scoreQuestionComplexity` (rules.ts lines 66-72): count of `'?'` in the
raw prompt. -/
def scoreQuestionComplexity (prompt : String) : DimensionScore :=
  let count := (prompt.data.filter (fun c => c = '?')).length
  if count > 3 then
    { name := "questionComplexity", score := 1/2,
      signal := some (toString count ++ " questions") }
  else { name := "questionComplexity", score := 0, signal := none }

/-- `scoreAgenticTask` (rules.ts lines 83-133): dimension score plus the
separate agentic score.  The loop collects matches in list order and keeps the
first three as signals. -/
def scoreAgenticTask (text : String) (keywords : List String) : DimensionScore × ℚ :=
  let matched := keywords.filter (fun kw => jsIncludes text (jsToLower kw))
  let signals := matched.take 3
  if matched.length ≥ 4 then
    ({ name := "agenticTask", score := 1,
       signal := some ("agentic (" ++ String.intercalate ", " signals ++ ")") }, 1)
  else if matched.length ≥ 3 then
    ({ name := "agenticTask", score := 3/5,
       signal := some ("agentic (" ++ String.intercalate ", " signals ++ ")") }, 3/5)
  else if matched.length ≥ 1 then
    ({ name := "agenticTask", score := 1/5,
       signal := some ("agentic-light (" ++ String.intercalate ", " signals ++ ")") }, 1/5)
  else ({ name := "agenticTask", score := 0, signal := none }, 0)

/-- `const userText = prompt.toLowerCase()` (rules.ts line 146). -/
def ruleUserText (prompt : String) : String := jsToLower prompt

/-- The `dimensions` array of `classifyByRules` (rules.ts lines 149-252): the
thirteen listed dimensions followed by the pushed agentic dimension. -/
def ruleDimensions (prompt : String) (estimatedTokens : Nat) (config : ScoringConfig) :
    List DimensionScore :=
  [scoreTokenCount estimatedTokens config.tokenCountThresholds,
   scoreKeywordMatch (ruleUserText prompt) config.codeKeywords "codePresence" "code"
     ⟨1, 2⟩ ⟨0, 1/2, 1⟩,
   scoreKeywordMatch (ruleUserText prompt) config.reasoningKeywords "reasoningMarkers" "reasoning"
     ⟨1, 2⟩ ⟨0, 7/10, 1⟩,
   scoreKeywordMatch (ruleUserText prompt) config.technicalKeywords "technicalTerms" "technical"
     ⟨2, 4⟩ ⟨0, 1/2, 1⟩,
   scoreKeywordMatch (ruleUserText prompt) config.creativeKeywords "creativeMarkers" "creative"
     ⟨1, 2⟩ ⟨0, 1/2, 7/10⟩,
   scoreKeywordMatch (ruleUserText prompt) config.simpleKeywords "simpleIndicators" "simple"
     ⟨1, 2⟩ ⟨0, -1, -1⟩,
   scoreMultiStep (ruleUserText prompt),
   scoreQuestionComplexity prompt,
   scoreKeywordMatch (ruleUserText prompt) config.imperativeVerbs "imperativeVerbs" "imperative"
     ⟨1, 2⟩ ⟨0, 3/10, 1/2⟩,
   scoreKeywordMatch (ruleUserText prompt) config.constraintIndicators "constraintCount"
     "constraints" ⟨1, 3⟩ ⟨0, 3/10, 7/10⟩,
   scoreKeywordMatch (ruleUserText prompt) config.outputFormatKeywords "outputFormat" "format"
     ⟨1, 2⟩ ⟨0, 2/5, 7/10⟩,
   scoreKeywordMatch (ruleUserText prompt) config.referenceKeywords "referenceComplexity"
     "references" ⟨1, 2⟩ ⟨0, 3/10, 1/2⟩,
   scoreKeywordMatch (ruleUserText prompt) config.negationKeywords "negationComplexity"
     "negation" ⟨2, 3⟩ ⟨0, 3/10, 1/2⟩,
   scoreKeywordMatch (ruleUserText prompt) config.domainSpecificKeywords "domainSpecificity"
     "domain-specific" ⟨1, 2⟩ ⟨0, 1/2, 4/5⟩] ++
  [(scoreAgenticTask (ruleUserText prompt) config.agenticTaskKeywords).1]

/-- `agenticScore` (rules.ts line 252). -/
def ruleAgenticScore (prompt : String) (config : ScoringConfig) : ℚ :=
  (scoreAgenticTask (ruleUserText prompt) config.agenticTaskKeywords).2

/-- `signals` collection (rules.ts line 255). -/
def ruleSignals (prompt : String) (estimatedTokens : Nat) (config : ScoringConfig) :
    List String :=
  (ruleDimensions prompt estimatedTokens config).filterMap (fun d => d.signal)

/-- The weighted aggregate score (rules.ts lines 258-263):
`weightedScore += d.score * (weights[d.name] ?? 0)`. -/
def ruleWeightedScore (prompt : String) (estimatedTokens : Nat) (config : ScoringConfig) : ℚ :=
  (ruleDimensions prompt estimatedTokens config).foldl
    (fun acc d => acc + d.score * (config.dimensionWeights d.name).getD 0) 0

/-- `reasoningMatches` (rules.ts lines 267-269): the configured reasoning
keywords found in the user text. -/
def ruleReasoningMatches (prompt : String) (config : ScoringConfig) : List String :=
  config.reasoningKeywords.filter (fun kw => jsIncludes (ruleUserText prompt) (jsToLower kw))

/-- `calibrateConfidence` (rules.ts lines 324-326):
`1 / (1 + Math.exp(-steepness * distance))`. -/
noncomputable def calibrateConfidence (distance steepness : ℝ) : ℝ :=
  1 / (1 + Real.exp (-steepness * distance))

/-- Tier chosen from the boundary comparison chain together with the distance
from the nearest boundary (rules.ts lines 288-307). -/
def ruleTierAndDistance (weightedScore : ℚ) (b : TierBoundaries) : Tier × ℚ :=
  if weightedScore < b.simpleMedium then
    (Tier.SIMPLE, b.simpleMedium - weightedScore)
  else if weightedScore < b.mediumComplex then
    (Tier.MEDIUM, min (weightedScore - b.simpleMedium) (b.mediumComplex - weightedScore))
  else if weightedScore < b.complexReasoning then
    (Tier.COMPLEX, min (weightedScore - b.mediumComplex) (b.complexReasoning - weightedScore))
  else (Tier.REASONING, weightedScore - b.complexReasoning)

/-- `classifyByRules` (rules.ts lines 137-318).  The `systemPrompt` argument
is accepted but never read by the function body (scoring uses the user prompt
only; token count arrives pre-computed in `estimatedTokens`).  The two result
records of the non-override path (ambiguous vs. confident) differ only in the
`tier` field, folded into one conditional here. -/
noncomputable def classifyByRules (prompt : String) (systemPrompt : Option String)
    (estimatedTokens : Nat) (config : ScoringConfig) : ScoringResult :=
  -- Direct reasoning override: 2+ reasoning markers = high confidence REASONING
  if 2 ≤ (ruleReasoningMatches prompt config).length then
    { score := ruleWeightedScore prompt estimatedTokens config
      tier := some Tier.REASONING
      confidence :=
        max (calibrateConfidence
              (((max (ruleWeightedScore prompt estimatedTokens config) (3/10) : ℚ) : ℝ))
              config.confidenceSteepness) 0.85
      signals := ruleSignals prompt estimatedTokens config
      agenticScore := ruleAgenticScore prompt config
      dimensions := ruleDimensions prompt estimatedTokens config }
  else
    { score := ruleWeightedScore prompt estimatedTokens config
      tier :=
        if calibrateConfidence
             (((ruleTierAndDistance (ruleWeightedScore prompt estimatedTokens config)
                 config.tierBoundaries).2 : ℚ) : ℝ) config.confidenceSteepness <
           config.confidenceThreshold
        then none
        else some (ruleTierAndDistance (ruleWeightedScore prompt estimatedTokens config)
               config.tierBoundaries).1
      confidence :=
        calibrateConfidence
          (((ruleTierAndDistance (ruleWeightedScore prompt estimatedTokens config)
              config.tierBoundaries).2 : ℚ) : ℝ) config.confidenceSteepness
      signals := ruleSignals prompt estimatedTokens config
      agenticScore := ruleAgenticScore prompt config
      dimensions := ruleDimensions prompt estimatedTokens config }

/-! ## LLM fallback classifier (`src/router/llm-classifier.ts`) -/

/-- JS `\b` word characters: `[A-Za-z0-9_]`. -/
def isWordChar (c : Char) : Bool := c.isAlphanum || c = '_'

/-- Regex `/\bWORD\b/.test(text)`: an occurrence of `word` with no word
character immediately before or after.  `prev` is the character preceding the
current scan position (`none` at the start of the text). -/
def wordBoundaryTest (word : List Char) : Option Char → List Char → Bool
  | _, [] => false
  | prev, c :: rest =>
    (List.isPrefixOf word (c :: rest) &&
      (match prev with
       | some p => !isWordChar p
       | none => true) &&
      (match (c :: rest).drop word.length with
       | [] => true
       | d :: _ => !isWordChar d)) ||
    wordBoundaryTest word (some c) rest

/-- `/\bWORD\b/.test(text)` from the start of the text. -/
def testWord (word : String) (text : String) : Bool :=
  wordBoundaryTest word.data none text.data

/-- `parseTier` (llm-classifier.ts lines 101-107): match the four tier names
in fixed priority order; default `MEDIUM`. -/
def parseTier (text : String) : Tier :=
  if testWord "REASONING" text then Tier.REASONING
  else if testWord "COMPLEX" text then Tier.COMPLEX
  else if testWord "MEDIUM" text then Tier.MEDIUM
  else if testWord "SIMPLE" text then Tier.SIMPLE
  else Tier.MEDIUM

/-- Outcome of `await response.json()` as observed by `classifyByLLM`:
either the call throws (malformed JSON), or it yields a body whose
`choices?.[0]?.message?.content` is the given optional string. -/
inductive JsonOutcome where
  | parseThrow
  | parsed (content : Option String)

/-- Outcome of the `payFetch` call: either the transport throws, or a
response arrives with the given `ok` flag and body. -/
inductive HttpOutcome where
  | fetchThrow
  | resp (ok : Bool) (body : JsonOutcome)

/-- `classifyByLLM` (llm-classifier.ts lines 41-96), with its only effects —
the upstream HTTP call and the TTL cache — abstracted into inputs:
`cacheHit` is the cached tier when `cache.get(key)` returned an unexpired
entry, and `outcome` is what the `payFetch`/`response.json()` sequence did.
The cache write and pruning mutate only the cache, not the returned value. -/
def classifyByLLM (cacheHit : Option Tier) (outcome : HttpOutcome) : Tier × ℚ :=
  match cacheHit with
  | some t => (t, 3/4)
  | none =>
    match outcome with
    | .fetchThrow => (Tier.MEDIUM, 1/2)
    | .resp ok body =>
      if !ok then (Tier.MEDIUM, 1/2)
      else
        match body with
        | .parseThrow => (Tier.MEDIUM, 1/2)
        | .parsed content =>
          -- content?.trim().toUpperCase() ?? ""
          let text := jsToUpper (String.mk (trimJs (content.getD "").data))
          (parseTier text, 3/4)

/-! ## Model selector (interface modelled from the spec and its tests) -/

/-- `ModelPricing`: input/output price for a model id. -/
structure ModelPricing where
  inputPrice : ℚ
  outputPrice : ℚ
deriving DecidableEq, Repr

/-- `RoutingDecision` (src/router/types.ts). -/
structure RoutingDecision where
  model : String
  tier : Tier
  confidence : ℝ
  method : String
  reasoning : String
  costEstimate : ℚ
  baselineCost : ℚ
  savings : ℚ

/-- Modelled from the spec: the Model Selector implementation
(`src/router/selector.ts`) is not among the provided sources — only its unit
tests (`selector.test.ts`) are.  Per §4.4 and the tests, the baseline model id
is `anthropic/claude-opus-4.6`, with a hardcoded fallback price pair so the
baseline cost is positive even when the catalog lacks the entry. -/
def BASELINE_MODEL : String := "anthropic/claude-opus-4.6"

/-- Modelled from the spec: hardcoded fallback pricing for the baseline model
(the concrete pair used in the selector tests' catalog). -/
def BASELINE_PRICING : ModelPricing := { inputPrice := 5, outputPrice := 25 }

/-- Modelled from the spec (§4.4): estimated cost of a request against one
model's pricing — input price times estimated input tokens plus output price
times requested max output tokens. -/
def modelCost (p : ModelPricing) (inputTokens maxOutputTokens : Nat) : ℚ :=
  p.inputPrice * inputTokens + p.outputPrice * maxOutputTokens

/-- Modelled from the spec: `filterByToolCalling` from `selector.ts` (absent
from the sources; behaviour fixed by §4.4 and the four unit tests in
`selector.test.ts`): with tool schemas present, drop candidates lacking
tool-calling support, unless that would empty the list, in which case return
the original list unchanged; with no tool schemas, return the list unchanged. -/
def filterByToolCalling (models : List String) (hasTools : Bool)
    (supportsToolCalling : String → Bool) : List String :=
  if !hasTools then models
  else
    let filtered := models.filter supportsToolCalling
    if filtered.isEmpty then models else filtered

/-- Modelled from the spec: `selectModel` from `selector.ts` (absent from the
sources; §4.4): resolve the tier's primary model, price the request against it
and against the baseline model (falling back to the hardcoded baseline pair),
and report `savings = 1 − cost/baseline` floored at 0.  Tier, confidence,
method and reasoning are passed through into the decision. -/
def selectModel (tier : Tier) (confidence : ℝ) (method reasoning : String)
    (tiers : Tier → TierConfigJs) (modelPricing : String → Option ModelPricing)
    (estimatedTokens maxOutputTokens : Nat) : RoutingDecision :=
  let primary := (tiers tier).primary
  let cost := modelCost ((modelPricing primary).getD ⟨0, 0⟩) estimatedTokens maxOutputTokens
  let baseCost := modelCost ((modelPricing BASELINE_MODEL).getD BASELINE_PRICING)
    estimatedTokens maxOutputTokens
  { model := primary, tier := tier, confidence := confidence, method := method,
    reasoning := reasoning, costEstimate := cost, baselineCost := baseCost,
    savings := max 0 (1 - cost / baseCost) }

/-! ## Router entry point (`route`) -/

/-- `ClassifierConfig` fields read by `route` (src/router/types.ts). -/
structure ClassifierConfig where
  llmModel : String
  llmMaxTokens : Nat
  llmTemperature : ℚ
  promptTruncationChars : Nat
  cacheTtlMs : Nat
deriving DecidableEq, Repr

/-- The `LLMClassifierConfig` record `route` assembles for `classifyByLLM`. -/
structure LLMClassifierConfig where
  model : String
  maxTokens : Nat
  temperature : ℚ
  truncationChars : Nat
  cacheTtlMs : Nat
deriving DecidableEq, Repr

/-- `OverridesConfig` (src/router/types.ts). -/
structure OverridesConfig where
  maxTokensForceComplex : Nat
  structuredOutputMinTier : Tier
deriving DecidableEq, Repr

/-- `RoutingConfig` (src/router/types.ts), restricted to the fields `route`
reads. -/
structure RoutingConfig where
  classifier : ClassifierConfig
  scoring : ScoringConfig
  tiers : Tier → TierConfigJs
  overrides : OverridesConfig

/-- `const tierRank: Record<Tier, number> = { SIMPLE: 0, MEDIUM: 1, COMPLEX: 2,
REASONING: 3 }` (route, structured-output step). -/
def tierRankT : Tier → Nat
  | .SIMPLE => 0
  | .MEDIUM => 1
  | .COMPLEX => 2
  | .REASONING => 3

/-- Token estimate of `route`:
`Math.ceil(((systemPrompt ?? "") + " " + prompt).length / 4)`. -/
def routeEstimatedTokens (prompt : String) (systemPrompt : Option String) : Nat :=
  (((systemPrompt.getD "") ++ " " ++ prompt).length + 3) / 4

/-- `/json|structured|schema/i.test(systemPrompt)`. -/
def hasStructuredOutput (systemPrompt : Option String) : Bool :=
  match systemPrompt with
  | some sp =>
    jsIncludes (jsToLower sp) "json" || jsIncludes (jsToLower sp) "structured" ||
    jsIncludes (jsToLower sp) "schema"
  | none => false

/-- The classification path of `route` (everything after the large-context
override).  `rulesFn` and `llmFn` stand for the imported `classifyByRules` and
(awaited) `classifyByLLM`; keeping them as parameters records exactly which
collaborators this path invokes. -/
noncomputable def routeClassify
    (rulesFn : String → Option String → Nat → ScoringConfig → ScoringResult)
    (llmFn : String → LLMClassifierConfig → Tier × ℝ)
    (prompt : String) (systemPrompt : Option String) (maxOutputTokens : Nat)
    (config : RoutingConfig) (modelPricing : String → Option ModelPricing) : RoutingDecision :=
  let estimatedTokens := routeEstimatedTokens prompt systemPrompt
  let ruleResult := rulesFn prompt systemPrompt estimatedTokens config.scoring
  let reasoning0 := "score=" ++ toString ruleResult.score ++ " | " ++
    String.intercalate ", " ruleResult.signals
  let step :=
    match ruleResult.tier with
    | some t => (t, ruleResult.confidence, "rules", reasoning0)
    | none =>
      let llmResult := llmFn prompt
        { model := config.classifier.llmModel, maxTokens := config.classifier.llmMaxTokens,
          temperature := config.classifier.llmTemperature,
          truncationChars := config.classifier.promptTruncationChars,
          cacheTtlMs := config.classifier.cacheTtlMs }
      (llmResult.1, llmResult.2, "llm", reasoning0 ++ " | ambiguous -> LLM: " ++ llmResult.1.str)
  let minTier := config.overrides.structuredOutputMinTier
  let upgraded := hasStructuredOutput systemPrompt && tierRankT step.1 < tierRankT minTier
  let finalTier := if upgraded then minTier else step.1
  let finalReasoning :=
    if upgraded then step.2.2.2 ++ " | upgraded to " ++ minTier.str ++ " (structured output)"
    else step.2.2.2
  selectModel finalTier step.2.1 step.2.2.1 finalReasoning config.tiers modelPricing
    estimatedTokens maxOutputTokens

/-- `route` (router entry point).  Step 1 is the large-context override:
if the token estimate exceeds `overrides.maxTokensForceComplex`, return a
COMPLEX decision at confidence 0.95 with method `"rules"` immediately,
without consulting either classifier. -/
noncomputable def route
    (rulesFn : String → Option String → Nat → ScoringConfig → ScoringResult)
    (llmFn : String → LLMClassifierConfig → Tier × ℝ)
    (prompt : String) (systemPrompt : Option String) (maxOutputTokens : Nat)
    (config : RoutingConfig) (modelPricing : String → Option ModelPricing) : RoutingDecision :=
  if routeEstimatedTokens prompt systemPrompt > config.overrides.maxTokensForceComplex then
    selectModel Tier.COMPLEX 0.95 "rules"
      ("Input exceeds " ++ toString config.overrides.maxTokensForceComplex ++ " tokens")
      config.tiers modelPricing (routeEstimatedTokens prompt systemPrompt) maxOutputTokens
  else
    routeClassify rulesFn llmFn prompt systemPrompt maxOutputTokens config modelPricing

/-! ## Concrete fixtures used by witnesses and counterexamples -/

/-- A small concrete `ScoringConfig` for evaluating the classifier. -/
noncomputable def cfgW1 : ScoringConfig :=
  { tokenCountThresholds := ⟨10, 1000⟩
    codeKeywords := []
    reasoningKeywords := ["prove", "step by step"]
    technicalKeywords := []
    creativeKeywords := []
    simpleKeywords := []
    imperativeVerbs := []
    constraintIndicators := []
    outputFormatKeywords := []
    referenceKeywords := []
    negationKeywords := []
    domainSpecificKeywords := []
    agenticTaskKeywords := []
    dimensionWeights := fun _ => none
    tierBoundaries := ⟨3/10, 3/5, 4/5⟩
    confidenceSteepness := 2
    confidenceThreshold := 3/5 }

/-- A session entry pinned at MEDIUM, not yet escalated. -/
def entryMedium : SessionEntry :=
  { model := "m0", tier := "MEDIUM", createdAt := 0, lastUsedAt := 0, requestCount := 1,
    recentHashes := [], strikes := 0, escalated := false }

/-- A session entry pinned at SIMPLE, not yet escalated. -/
def entrySimple : SessionEntry :=
  { model := "m0", tier := "SIMPLE", createdAt := 0, lastUsedAt := 0, requestCount := 1,
    recentHashes := [], strikes := 0, escalated := false }

/-- A one-session store pinned at SIMPLE. -/
def storeSimple : Store := [("s", entrySimple)]

/-- A one-session store pinned at MEDIUM. -/
def storeMedium : Store := [("s", entryMedium)]

/-- A tier-config table with an entry for COMPLEX only. -/
def cfgsComplexOnly : String → Option TierConfigJs :=
  fun t => if t = "COMPLEX" then some ⟨"mC", []⟩ else none

/-- A total tier-config table. -/
def cfgsTotal : String → Option TierConfigJs :=
  fun t =>
    if t = "SIMPLE" then some ⟨"mS", []⟩
    else if t = "MEDIUM" then some ⟨"mM", []⟩
    else if t = "COMPLEX" then some ⟨"mC", []⟩
    else if t = "REASONING" then some ⟨"mR", []⟩
    else none

/-- Store created by pinning a fresh session at MEDIUM. -/
def storeE0 : Store := setSession true [] "s" "m0" "MEDIUM" 0

/-- `storeE0` after a three-strike escalation to COMPLEX. -/
def storeE1 : Store := (escalateSession storeE0 "s" cfgsComplexOnly).2

/-- An already-escalated entry pinned at MEDIUM. -/
def entryEsc : SessionEntry :=
  { model := "mM", tier := "MEDIUM", createdAt := 0, lastUsedAt := 0, requestCount := 1,
    recentHashes := [], strikes := 0, escalated := true }

/-- A one-session store holding `entryEsc`. -/
def storeEsc : Store := [("s", entryEsc)]

/-- A concrete operation sequence containing no `setSession` call. -/
def opsW2 : List SOp := [SOp.touch "s" 5, SOp.record "s" "h1", SOp.escalate "s" cfgsTotal]

/-- The capability predicate used in `selector.test.ts`. -/
def supportsW : String → Bool :=
  fun modelId => !(modelId = "xai/grok-code-fast-1" || modelId = "nvidia/gpt-oss-120b")

/-- A stub rule classifier result (used only to instantiate `route`'s
classifier parameter in witnesses). -/
noncomputable def stubScoringResult : ScoringResult :=
  { score := 0, tier := none, confidence := 0, signals := [], agenticScore := 0,
    dimensions := [] }

/-- A concrete `RoutingConfig` with a tiny token ceiling. -/
noncomputable def cfgR6 : RoutingConfig :=
  { classifier := { llmModel := "cheap", llmMaxTokens := 10, llmTemperature := 0,
                    promptTruncationChars := 500, cacheTtlMs := 1000 }
    scoring := cfgW1
    tiers := fun _ => ⟨"tier-model", []⟩
    overrides := { maxTokensForceComplex := 1, structuredOutputMinTier := Tier.MEDIUM } }

/-! ## Helper lemmas -/

/-- Reading back through an update: the updated entry under the updated key,
everything else untouched. -/
theorem lookupS_updateS (s : Store) (id id' : String) (f : SessionEntry → SessionEntry) :
    lookupS (updateS s id f) id' =
      if id' = id then (lookupS s id').map f else lookupS s id' := by
  induction s with
  | nil => by_cases h : id' = id <;> simp [lookupS, updateS, h]
  | cons p rest ih =>
    by_cases h1 : p.1 = id <;> by_cases h2 : p.1 = id' <;> by_cases h3 : id' = id <;>
      simp_all [lookupS, updateS, List.find?_cons]

/-- A deduplicated list is no longer than the original. -/
theorem dedup_length_le (l : List String) : l.dedup.length ≤ l.length :=
  List.Sublist.length_le (List.dedup_sublist l)

/-! ## Claims -/

/-- C8.  Noninterference of the system prompt: `classifyByRules` never reads
its `systemPrompt` argument, so for a fixed user prompt and fixed estimated
token count the entire `ScoringResult` — score, tier, confidence, signals,
agentic score and per-dimension breakdown — is identical for any two system
prompts; the system text can influence the result only through the separately
computed `estimatedTokens` input of the token-count dimension. -/
theorem classifyByRules_systemPrompt_noninterference
    (prompt : String) (sys1 sys2 : Option String) (estimatedTokens : Nat)
    (config : ScoringConfig) :
    classifyByRules prompt sys1 estimatedTokens config =
      classifyByRules prompt sys2 estimatedTokens config := rfl

/-- C1.  If the user text matches 2 or more distinct reasoning keywords from
the configured list, `classifyByRules` returns tier REASONING with confidence
at least 0.85, regardless of the weighted score and of every other dimension. -/
theorem classifyByRules_reasoning_override
    (prompt : String) (systemPrompt : Option String) (estimatedTokens : Nat)
    (config : ScoringConfig)
    (h : 2 ≤ (ruleReasoningMatches prompt config).dedup.length) :
    (classifyByRules prompt systemPrompt estimatedTokens config).tier = some Tier.REASONING ∧
      (0.85 : ℝ) ≤ (classifyByRules prompt systemPrompt estimatedTokens config).confidence := by
  have h2 : 2 ≤ (ruleReasoningMatches prompt config).length :=
    le_trans h (dedup_length_le _)
  unfold classifyByRules
  rw [if_pos h2]
  exact ⟨rfl, le_max_right _ _⟩

/-- C1 witness: "prove this step by step" matches the two distinct reasoning
keywords of `cfgW1`, so the override fires. -/
theorem classifyByRules_reasoning_override_witness :
    2 ≤ (ruleReasoningMatches "prove this step by step" cfgW1).dedup.length ∧
      ((classifyByRules "prove this step by step" none 6 cfgW1).tier = some Tier.REASONING ∧
        (0.85 : ℝ) ≤ (classifyByRules "prove this step by step" none 6 cfgW1).confidence) :=
  ⟨by decide, classifyByRules_reasoning_override "prove this step by step" none 6 cfgW1
    (by decide)⟩

/-- C9.  The capability filter removes exactly the candidates lacking
tool-calling support when the request carries tool schemas, returns the list
unchanged when there are no tool schemas or when nothing would be removed,
and returns the original list unchanged when filtering would leave nothing. -/
theorem filterByToolCalling_spec (models : List String) (hasTools : Bool)
    (supports : String → Bool) :
    (hasTools = false → filterByToolCalling models hasTools supports = models) ∧
      (hasTools = true → models.filter supports ≠ [] →
        filterByToolCalling models hasTools supports = models.filter supports) ∧
      (hasTools = true → (∀ m ∈ models, supports m = true) →
        filterByToolCalling models hasTools supports = models) ∧
      (hasTools = true → models.filter supports = [] →
        filterByToolCalling models hasTools supports = models) := by
  refine ⟨fun h => ?_, fun h hne => ?_, fun h hall => ?_, fun h hemp => ?_⟩ <;>
    subst h <;> simp only [filterByToolCalling, Bool.not_true, Bool.not_false,
      if_pos rfl, if_neg (by simp : ¬ (false = true))]
  · rfl
  · rw [if_neg (by simpa [List.isEmpty_iff] using hne)]
  · have : models.filter supports = models := List.filter_eq_self.mpr hall
    rw [this]
    by_cases hm : models = []
    · subst hm; simp
    · rw [if_neg (by simpa [List.isEmpty_iff] using hm)]
  · rw [hemp]; simp

/-- C9 witness: the four scenarios of `selector.test.ts` on the concrete
capability predicate. -/
theorem filterByToolCalling_spec_witness :
    (["moonshot/kimi-k2.5", "xai/grok-code-fast-1", "deepseek/deepseek-chat"].filter supportsW ≠ [] ∧
      filterByToolCalling ["moonshot/kimi-k2.5", "xai/grok-code-fast-1", "deepseek/deepseek-chat"]
        true supportsW =
        ["moonshot/kimi-k2.5", "xai/grok-code-fast-1", "deepseek/deepseek-chat"].filter supportsW) ∧
      (["xai/grok-code-fast-1", "nvidia/gpt-oss-120b"].filter supportsW = [] ∧
        filterByToolCalling ["xai/grok-code-fast-1", "nvidia/gpt-oss-120b"] true supportsW =
          ["xai/grok-code-fast-1", "nvidia/gpt-oss-120b"]) :=
  ⟨⟨by decide,
    (filterByToolCalling_spec ["moonshot/kimi-k2.5", "xai/grok-code-fast-1",
      "deepseek/deepseek-chat"] true supportsW).2.1 rfl (by decide)⟩,
   ⟨by decide,
    (filterByToolCalling_spec ["xai/grok-code-fast-1", "nvidia/gpt-oss-120b"] true
      supportsW).2.2.2 rfl (by decide)⟩⟩

/-- Sorting is a function of the multiset of elements: permuted inputs sort
to the same list. -/
theorem sortStrings_perm_eq {n1 n2 : List String} (h : List.Perm n1 n2) :
    sortStrings n1 = sortStrings n2 :=
  List.eq_of_perm_of_sorted
    ((List.perm_insertionSort _ n1).trans (h.trans (List.perm_insertionSort _ n2).symm))
    (List.sorted_insertionSort _ n1) (List.sorted_insertionSort _ n2)

/-- C10.  Two contents with the same normalization (whitespace runs collapsed,
trimmed, truncated to 500 characters) and the same multiset of tool-call
names produce identical request fingerprints, for any hash primitive — hence
the three-strike repetition check treats such requests as identical. -/
theorem hashRequestContent_normalized (sha256hex : String → String)
    (c1 c2 : String) (n1 n2 : List String)
    (hc : normalizeContent c1 = normalizeContent c2) (hn : List.Perm n1 n2) :
    hashRequestContent sha256hex c1 n1 = hashRequestContent sha256hex c2 n2 := by
  have he : n1.isEmpty = n2.isEmpty := by
    cases n1 with
    | nil => cases n2 with
      | nil => rfl
      | cons b bs => exact absurd hn.symm (by simp)
    | cons a as => cases n2 with
      | nil => exact absurd hn (by simp)
      | cons b bs => rfl
  simp only [hashRequestContent, hc, he, sortStrings_perm_eq hn]

/-- C10 witness: `"a  b "` and `" a b"` normalize identically and
`["y", "x"]` is a permutation of `["x", "y"]`. -/
theorem hashRequestContent_normalized_witness :
    normalizeContent "a  b " = normalizeContent " a b" ∧
      List.Perm ["y", "x"] ["x", "y"] ∧
      hashRequestContent (fun s => s) "a  b " ["y", "x"] =
        hashRequestContent (fun s => s) " a b" ["x", "y"] :=
  ⟨by decide, by decide,
    hashRequestContent_normalized (fun s => s) "a  b " " a b" ["y", "x"] ["x", "y"]
      (by decide) (by decide)⟩

/-- C5 counterexample: a successful (status ok, well-formed JSON) response
whose text contains none of the four tier names.  The claim says every such
failure yields confidence 0.5; the code parses the tier to the MEDIUM default
but returns it as a successful classification at confidence 0.75. -/
theorem classifyByLLM_unparseable_cex :
    classifyByLLM none (HttpOutcome.resp true (JsonOutcome.parsed (some "HELLO"))) =
      (Tier.MEDIUM, 3/4) ∧ (3/4 : ℚ) ≠ 1/2 := by
  refine ⟨?_, by norm_num⟩
  simp only [classifyByLLM]
  norm_num
  decide

/-- C5 (amended).  On a cache miss, a thrown transport error, a non-ok HTTP
status, or a JSON parse error each yield `(MEDIUM, 0.5)`; a successful
response whose text contains none of the four tier names defaults the tier to
MEDIUM but is returned at the ordinary success confidence 0.75.  The function
is total, so no failure is ever propagated to the caller. -/
theorem classifyByLLM_failure_spec (b : JsonOutcome) (content : Option String)
    (hnone : ∀ w, w ∈ ["REASONING", "COMPLEX", "MEDIUM", "SIMPLE"] →
      testWord w (jsToUpper (String.mk (trimJs (content.getD "").data))) = false) :
    classifyByLLM none HttpOutcome.fetchThrow = (Tier.MEDIUM, 1/2) ∧
      classifyByLLM none (HttpOutcome.resp false b) = (Tier.MEDIUM, 1/2) ∧
      classifyByLLM none (HttpOutcome.resp true JsonOutcome.parseThrow) = (Tier.MEDIUM, 1/2) ∧
      classifyByLLM none (HttpOutcome.resp true (JsonOutcome.parsed content)) =
        (Tier.MEDIUM, 3/4) := by
  refine ⟨rfl, rfl, rfl, ?_⟩
  have h1 := hnone "REASONING" (by simp)
  have h2 := hnone "COMPLEX" (by simp)
  have h3 := hnone "MEDIUM" (by simp)
  have h4 := hnone "SIMPLE" (by simp)
  simp [classifyByLLM, parseTier, h1, h2, h3, h4]

/-- C5 witness: a concrete tier-free response text. -/
theorem classifyByLLM_failure_spec_witness :
    (∀ w, w ∈ ["REASONING", "COMPLEX", "MEDIUM", "SIMPLE"] →
      testWord w (jsToUpper (String.mk (trimJs ((some "no tier here").getD "").data))) = false) ∧
      classifyByLLM none HttpOutcome.fetchThrow = (Tier.MEDIUM, 1/2) ∧
      classifyByLLM none (HttpOutcome.resp false JsonOutcome.parseThrow) = (Tier.MEDIUM, 1/2) ∧
      classifyByLLM none (HttpOutcome.resp true JsonOutcome.parseThrow) = (Tier.MEDIUM, 1/2) ∧
      classifyByLLM none (HttpOutcome.resp true (JsonOutcome.parsed (some "no tier here"))) =
        (Tier.MEDIUM, 3/4) :=
  ⟨by decide, classifyByLLM_failure_spec JsonOutcome.parseThrow (some "no tier here") (by decide)⟩

/-- C3.  `recordRequestHash`: on a present session it appends the fingerprint
to the sliding window (never exceeding 3 entries when the window was within
bounds), increments the strike counter when the new fingerprint equals the
immediately preceding one and resets it to 0 otherwise, and returns true
exactly when the updated strike counter has reached 2 and the session has not
already escalated; on an absent session it returns false and leaves the store
untouched. -/
theorem recordRequestHash_spec (s : Store) (id hash : String) :
    (lookupS s id = none → recordRequestHash s id hash = (false, s)) ∧
      (∀ e, lookupS s id = some e →
        ∃ e', lookupS (recordRequestHash s id hash).2 id = some e' ∧
          e'.recentHashes =
            (if (e.recentHashes ++ [hash]).length > 3 then (e.recentHashes ++ [hash]).tail
             else e.recentHashes ++ [hash]) ∧
          (e.recentHashes.length ≤ 3 → e'.recentHashes.length ≤ 3) ∧
          e'.recentHashes.getLast? = some hash ∧
          e'.strikes = (if e.recentHashes.getLast? = some hash then e.strikes + 1 else 0) ∧
          ((recordRequestHash s id hash).1 = true ↔ 2 ≤ e'.strikes ∧ e.escalated = false)) := by
  constructor
  · intro h
    simp [recordRequestHash, h]
  · intro e he
    have hu := lookupS_updateS s id id
      (fun e0 => { e0 with
        strikes := if e.recentHashes.getLast? = some hash then e.strikes + 1 else 0
        recentHashes :=
          if (e.recentHashes ++ [hash]).length > 3 then (e.recentHashes ++ [hash]).tail
          else e.recentHashes ++ [hash] })
    rw [if_pos rfl, he] at hu
    refine ⟨{ e with
        strikes := if e.recentHashes.getLast? = some hash then e.strikes + 1 else 0
        recentHashes :=
          if (e.recentHashes ++ [hash]).length > 3 then (e.recentHashes ++ [hash]).tail
          else e.recentHashes ++ [hash] }, ?_, rfl, ?_, ?_, rfl, ?_⟩
    · simp only [recordRequestHash, he]
      exact hu
    · intro hlen
      by_cases hgt : (e.recentHashes ++ [hash]).length > 3
      · rw [if_pos hgt]
        simp only [List.length_tail, List.length_append, List.length_singleton]
        omega
      · rw [if_neg hgt]
        simp only [List.length_append, List.length_singleton] at hgt ⊢
        omega
    · by_cases hgt : (e.recentHashes ++ [hash]).length > 3
      · rw [if_pos hgt]
        cases hrh : e.recentHashes with
        | nil => rw [hrh] at hgt; simp at hgt
        | cons a as => simp [List.getLast?_concat]
      · rw [if_neg hgt]
        exact List.getLast?_concat _
    · simp only [recordRequestHash, he, Bool.and_eq_true, decide_eq_true_eq,
        Bool.not_eq_true']

/-- C3 witness: both branches at concrete inputs — an absent session id is a
no-op returning false, and a present session id gets the characterized
update. -/
theorem recordRequestHash_spec_witness :
    (lookupS ([] : Store) "s" = none ∧ recordRequestHash ([] : Store) "s" "h1" = (false, [])) ∧
      (lookupS storeMedium "s" = some entryMedium ∧
        ∃ e', lookupS (recordRequestHash storeMedium "s" "h1").2 "s" = some e' ∧
          e'.recentHashes =
            (if (entryMedium.recentHashes ++ ["h1"]).length > 3 then
              (entryMedium.recentHashes ++ ["h1"]).tail
             else entryMedium.recentHashes ++ ["h1"]) ∧
          (entryMedium.recentHashes.length ≤ 3 → e'.recentHashes.length ≤ 3) ∧
          e'.recentHashes.getLast? = some "h1" ∧
          e'.strikes =
            (if entryMedium.recentHashes.getLast? = some "h1" then entryMedium.strikes + 1
             else 0) ∧
          ((recordRequestHash storeMedium "s" "h1").1 = true ↔
            2 ≤ e'.strikes ∧ entryMedium.escalated = false)) :=
  ⟨⟨rfl, (recordRequestHash_spec ([] : Store) "s" "h1").1 rfl⟩,
   ⟨rfl, (recordRequestHash_spec storeMedium "s" "h1").2 entryMedium rfl⟩⟩

/-- C4 counterexample: a known session pinned at SIMPLE (not REASONING) with
a tier-config table that lacks a MEDIUM entry.  The claim says escalation
advances the tier for *every* session id and tier-config table, returning
null only for an unknown id or a REASONING tier; the code also returns null —
leaving the store unchanged, with no advancement — whenever the table has no
entry for the next tier. -/
theorem escalateSession_missing_next_cex :
    lookupS storeSimple "s" = some entrySimple ∧ entrySimple.tier = "SIMPLE" ∧
      cfgsComplexOnly "MEDIUM" = none ∧
      escalateSession storeSimple "s" cfgsComplexOnly = (none, storeSimple) := by
  refine ⟨rfl, rfl, rfl, ?_⟩
  decide

/-- C4 (amended).  `escalateSession` advances the session's pinned tier by
exactly one step of SIMPLE → MEDIUM → COMPLEX → REASONING, re-pins the model
to the next tier's configured primary, resets strikes to 0 and sets the
escalated flag; it returns null and leaves the store unchanged when the
session id is unknown, when the stored tier is REASONING or not a valid tier
name, or when the tier-config table has no entry for the next tier. -/
theorem escalateSession_spec (s : Store) (id : String)
    (cfgs : String → Option TierConfigJs) :
    (lookupS s id = none → escalateSession s id cfgs = (none, s)) ∧
      (∀ e, lookupS s id = some e →
        ((tierRank e.tier < 0 ∨ 3 ≤ tierRank e.tier) →
          escalateSession s id cfgs = (none, s)) ∧
        (∀ i : Nat, tierRank e.tier = (i : Int) → i < 3 →
          (cfgs (TIER_ORDER.getD (i + 1) "") = none →
            escalateSession s id cfgs = (none, s)) ∧
          (∀ nc, cfgs (TIER_ORDER.getD (i + 1) "") = some nc →
            (escalateSession s id cfgs).1 = some (nc.primary, TIER_ORDER.getD (i + 1) "") ∧
              lookupS (escalateSession s id cfgs).2 id =
                some { e with model := nc.primary, tier := TIER_ORDER.getD (i + 1) "",
                              strikes := 0, escalated := true } ∧
              tierRank (TIER_ORDER.getD (i + 1) "") = (i : Int) + 1))) := by
  constructor
  · intro h
    simp [escalateSession, h]
  · intro e he
    have hc : (TIER_ORDER.length : Int) - 1 = 3 := by decide
    constructor
    · intro hbad
      have hbad' : jsIndexOf TIER_ORDER e.tier < 0 ∨ jsIndexOf TIER_ORDER e.tier ≥ 3 := hbad
      simp only [escalateSession, he, hc]
      rw [if_pos hbad']
    · intro i hi hlt
      have hi' : jsIndexOf TIER_ORDER e.tier = (i : Int) := hi
      have hcond : ¬ (jsIndexOf TIER_ORDER e.tier < 0 ∨
          jsIndexOf TIER_ORDER e.tier ≥ (TIER_ORDER.length : Int) - 1) := by
        rw [hi', hc]
        push_neg
        constructor
        · positivity
        · exact_mod_cast hlt
      have htn : (jsIndexOf TIER_ORDER e.tier).toNat + 1 = i + 1 := by
        rw [hi']
        simp
      constructor
      · intro hnone
        simp only [escalateSession, he, if_neg hcond, htn, hnone]
      · intro nc hnc
        have hu := lookupS_updateS s id id
          (fun e0 => { e0 with model := nc.primary, tier := TIER_ORDER.getD (i + 1) "",
                               strikes := 0, escalated := true })
        rw [if_pos rfl, he] at hu
        refine ⟨?_, ?_, ?_⟩
        · simp only [escalateSession, he, if_neg hcond, htn, hnc]
        · simp only [escalateSession, he, if_neg hcond, htn, hnc]
          exact hu
        · interval_cases i <;> decide

/-- C4 witness: a session pinned at MEDIUM with a total table escalates to
COMPLEX, re-pins to the COMPLEX primary, resets strikes and sets the flag. -/
theorem escalateSession_spec_witness :
    lookupS storeMedium "s" = some entryMedium ∧ tierRank entryMedium.tier = (1 : Int) ∧
      (1 : Nat) < 3 ∧ cfgsTotal (TIER_ORDER.getD 2 "") = some ⟨"mC", []⟩ ∧
      ((escalateSession storeMedium "s" cfgsTotal).1 =
          some (TierConfigJs.primary ⟨"mC", []⟩, TIER_ORDER.getD 2 "") ∧
        lookupS (escalateSession storeMedium "s" cfgsTotal).2 "s" =
          some { entryMedium with model := TierConfigJs.primary ⟨"mC", []⟩,
                                  tier := TIER_ORDER.getD 2 "",
                                  strikes := 0, escalated := true } ∧
        tierRank (TIER_ORDER.getD 2 "") = (1 : Int) + 1) :=
  ⟨rfl, by decide, by decide, rfl,
    ((escalateSession_spec storeMedium "s" cfgsTotal).2 entryMedium rfl).2 1 (by decide)
      (by decide) |>.2 ⟨"mC", []⟩ rfl⟩

/-- A tier index strictly below the ceiling is dominated by the rank of the
next tier in `TIER_ORDER`. -/
theorem rank_le_next (t : String)
    (h : ¬ (jsIndexOf TIER_ORDER t < 0 ∨
      jsIndexOf TIER_ORDER t ≥ (TIER_ORDER.length : Int) - 1)) :
    jsIndexOf TIER_ORDER t ≤
      tierRank (TIER_ORDER.getD ((jsIndexOf TIER_ORDER t).toNat + 1) "") := by
  push_neg at h
  obtain ⟨h0, h3⟩ := h
  have hlen : (TIER_ORDER.length : Int) - 1 = 3 := by decide
  rw [hlen] at h3
  obtain ⟨n, hn⟩ : ∃ n : Nat, jsIndexOf TIER_ORDER t = (n : Int) :=
    ⟨(jsIndexOf TIER_ORDER t).toNat, (Int.toNat_of_nonneg h0).symm⟩
  rw [hn] at h3 ⊢
  have hn3 : n < 3 := by exact_mod_cast h3
  simp only [Int.toNat_natCast]
  interval_cases n <;> decide

/-- Any single non-`setSession` operation keeps the entry present, never
lowers its tier rank, and never clears its escalated flag. -/
theorem apply_nonset_mono (enabled : Bool) (op : SOp) (hop : op.isSet = false)
    (s : Store) (id : String) (e : SessionEntry) (he : lookupS s id = some e) :
    ∃ e', lookupS (SOp.apply enabled s op) id = some e' ∧
      tierRank e.tier ≤ tierRank e'.tier ∧ (e.escalated = true → e'.escalated = true) := by
  cases op with
  | set oid model tier now => simp [SOp.isSet] at hop
  | touch oid now =>
    simp only [SOp.apply, touchSession]
    by_cases hcond : enabled = false ∨ oid = ""
    · rw [if_pos hcond]
      exact ⟨e, he, le_refl _, fun h => h⟩
    · rw [if_neg hcond]
      cases hl : lookupS s oid with
      | none => exact ⟨e, he, le_refl _, fun h => h⟩
      | some e0 =>
        rw [lookupS_updateS]
        by_cases hid : id = oid
        · rw [if_pos hid, he]
          exact ⟨_, rfl, le_refl _, fun h => h⟩
        · rw [if_neg hid]
          exact ⟨e, he, le_refl _, fun h => h⟩
  | record oid hash =>
    simp only [SOp.apply, recordRequestHash]
    cases hl : lookupS s oid with
    | none => exact ⟨e, he, le_refl _, fun h => h⟩
    | some e0 =>
      simp only
      rw [lookupS_updateS]
      by_cases hid : id = oid
      · rw [if_pos hid, he]
        exact ⟨_, rfl, le_refl _, fun h => h⟩
      · rw [if_neg hid]
        exact ⟨e, he, le_refl _, fun h => h⟩
  | escalate oid cfgs =>
    simp only [SOp.apply, escalateSession]
    cases hl : lookupS s oid with
    | none => exact ⟨e, he, le_refl _, fun h => h⟩
    | some e0 =>
      simp only
      by_cases hcond : jsIndexOf TIER_ORDER e0.tier < 0 ∨
          jsIndexOf TIER_ORDER e0.tier ≥ (TIER_ORDER.length : Int) - 1
      · rw [if_pos hcond]
        exact ⟨e, he, le_refl _, fun h => h⟩
      · rw [if_neg hcond]
        cases hcf : cfgs (TIER_ORDER.getD ((jsIndexOf TIER_ORDER e0.tier).toNat + 1) "") with
        | none => exact ⟨e, he, le_refl _, fun h => h⟩
        | some nc =>
          simp only
          rw [lookupS_updateS]
          by_cases hid : id = oid
          · rw [if_pos hid, he]
            refine ⟨_, rfl, ?_, fun _ => rfl⟩
            have hee : e = e0 := by
              rw [hid] at he
              rw [he] at hl
              exact Option.some_injective _ hl
            rw [hee]
            exact rank_le_next e0.tier hcond
          · rw [if_neg hid]
            exact ⟨e, he, le_refl _, fun h => h⟩

/-- C2 counterexample: pin a session at MEDIUM, escalate it to COMPLEX (the
escalated flag is now set), then apply the `setSession` store operation with
a different served model at tier SIMPLE — the pinned tier drops from COMPLEX
to SIMPLE while the escalated flag is still set. -/
theorem session_escalated_downgrade_cex :
    (lookupS storeE1 "s").map (fun e => (e.tier, e.escalated)) = some ("COMPLEX", true) ∧
      (lookupS (SOp.apply true storeE1 (SOp.set "s" "m2" "SIMPLE" 1)) "s").map
        (fun e => (e.tier, e.escalated)) = some ("SIMPLE", true) ∧
      tierRank "SIMPLE" < tierRank "COMPLEX" := by
  refine ⟨rfl, rfl, by decide⟩

/-- C2 (amended).  Once a session entry's escalated flag is set, no sequence
of SessionStore operations **other than `setSession`** (`touchSession`,
`recordRequestHash`, `escalateSession`) ever moves the entry's tier to a
lower rank in SIMPLE < MEDIUM < COMPLEX < REASONING, and the entry keeps
existing with its flag set; `setSession` with a changed served model can
re-pin the tier downward (see the counterexample). -/
theorem session_escalated_no_downgrade (enabled : Bool) (ops : List SOp)
    (hops : ∀ op ∈ ops, op.isSet = false) (s : Store) (id : String) (e : SessionEntry)
    (he : lookupS s id = some e) (hesc : e.escalated = true) :
    ∃ e', lookupS (applyOps enabled s ops) id = some e' ∧
      tierRank e.tier ≤ tierRank e'.tier ∧ e'.escalated = true := by
  induction ops generalizing s e with
  | nil => exact ⟨e, he, le_refl _, hesc⟩
  | cons op rest ih =>
    obtain ⟨e1, h1, hr1, hesc1⟩ :=
      apply_nonset_mono enabled op (hops op (by simp)) s id e he
    obtain ⟨e2, h2, hr2, hesc2⟩ :=
      ih (fun o ho => hops o (by simp [ho])) (SOp.apply enabled s op) e1 h1 (hesc1 hesc)
    exact ⟨e2, h2, le_trans hr1 hr2, hesc2⟩

/-- C2 witness: an escalated MEDIUM session survives a touch, a fingerprint
record and an escalation attempt without its tier rank ever dropping. -/
theorem session_escalated_no_downgrade_witness :
    (∀ op ∈ opsW2, op.isSet = false) ∧ lookupS storeEsc "s" = some entryEsc ∧
      entryEsc.escalated = true ∧
      ∃ e', lookupS (applyOps true storeEsc opsW2) "s" = some e' ∧
        tierRank entryEsc.tier ≤ tierRank e'.tier ∧ e'.escalated = true :=
  ⟨by
    intro op hop
    simp only [opsW2, List.mem_cons, List.not_mem_nil, or_false] at hop
    rcases hop with rfl | rfl | rfl <;> rfl,
   rfl, rfl,
   session_escalated_no_downgrade true opsW2
    (by
      intro op hop
      simp only [opsW2, List.mem_cons, List.not_mem_nil, or_false] at hop
      rcases hop with rfl | rfl | rfl <;> rfl)
    storeEsc "s" entryEsc rfl rfl⟩

/-- C6.  When the estimated token count exceeds the configured
`maxTokensForceComplex` ceiling, `route` returns the COMPLEX `selectModel`
decision (tier COMPLEX, method `"rules"`, reasoning citing the ceiling) and
the result is independent of both classifier functions — neither the rule
classifier nor the fallback classifier is consulted. -/
theorem route_large_context_override
    (rulesFn1 rulesFn2 : String → Option String → Nat → ScoringConfig → ScoringResult)
    (llmFn1 llmFn2 : String → LLMClassifierConfig → Tier × ℝ)
    (prompt : String) (systemPrompt : Option String) (maxOutputTokens : Nat)
    (config : RoutingConfig) (modelPricing : String → Option ModelPricing)
    (h : routeEstimatedTokens prompt systemPrompt > config.overrides.maxTokensForceComplex) :
    route rulesFn1 llmFn1 prompt systemPrompt maxOutputTokens config modelPricing =
      selectModel Tier.COMPLEX 0.95 "rules"
        ("Input exceeds " ++ toString config.overrides.maxTokensForceComplex ++ " tokens")
        config.tiers modelPricing (routeEstimatedTokens prompt systemPrompt)
        maxOutputTokens ∧
      route rulesFn1 llmFn1 prompt systemPrompt maxOutputTokens config modelPricing =
        route rulesFn2 llmFn2 prompt systemPrompt maxOutputTokens config modelPricing ∧
      (route rulesFn1 llmFn1 prompt systemPrompt maxOutputTokens config modelPricing).tier =
        Tier.COMPLEX ∧
      (route rulesFn1 llmFn1 prompt systemPrompt maxOutputTokens config modelPricing).method =
        "rules" ∧
      (route rulesFn1 llmFn1 prompt systemPrompt maxOutputTokens config
          modelPricing).reasoning =
        "Input exceeds " ++ toString config.overrides.maxTokensForceComplex ++ " tokens" := by
  have hr : ∀ (rf : String → Option String → Nat → ScoringConfig → ScoringResult)
      (lf : String → LLMClassifierConfig → Tier × ℝ),
      route rf lf prompt systemPrompt maxOutputTokens config modelPricing =
        selectModel Tier.COMPLEX 0.95 "rules"
          ("Input exceeds " ++ toString config.overrides.maxTokensForceComplex ++ " tokens")
          config.tiers modelPricing (routeEstimatedTokens prompt systemPrompt)
          maxOutputTokens := by
    intro rf lf
    unfold route
    rw [if_pos h]
  refine ⟨hr rulesFn1 llmFn1, ?_, ?_, ?_, ?_⟩
  · rw [hr rulesFn1 llmFn1, hr rulesFn2 llmFn2]
  · rw [hr rulesFn1 llmFn1]; rfl
  · rw [hr rulesFn1 llmFn1]; rfl
  · rw [hr rulesFn1 llmFn1]; rfl

/-- C6 witness: a 24-character prompt estimates to 7 tokens, above `cfgR6`'s
ceiling of 1; the decision is the COMPLEX override for any pair of stub
classifiers. -/
theorem route_large_context_override_witness :
    routeEstimatedTokens "please summarize all this" none >
        cfgR6.overrides.maxTokensForceComplex ∧
      ((route (fun _ _ _ _ => stubScoringResult) (fun _ _ => (Tier.SIMPLE, 0))
          "please summarize all this" none 100 cfgR6 (fun _ => none)).tier = Tier.COMPLEX ∧
        (route (fun _ _ _ _ => stubScoringResult) (fun _ _ => (Tier.SIMPLE, 0))
          "please summarize all this" none 100 cfgR6 (fun _ => none)).method = "rules") :=
  ⟨by decide,
   ⟨(route_large_context_override (fun _ _ _ _ => stubScoringResult)
      (fun _ _ _ _ => stubScoringResult) (fun _ _ => (Tier.SIMPLE, 0))
      (fun _ _ => (Tier.SIMPLE, 0))
      "please summarize all this" none 100 cfgR6 (fun _ => none) (by decide)).2.2.1,
    (route_large_context_override (fun _ _ _ _ => stubScoringResult)
      (fun _ _ _ _ => stubScoringResult) (fun _ _ => (Tier.SIMPLE, 0))
      (fun _ _ => (Tier.SIMPLE, 0))
      "please summarize all this" none 100 cfgR6 (fun _ => none) (by decide)).2.2.2.1⟩⟩

/-- C7.  For steepness `k > 0` the logistic calibration
`1 / (1 + e^(-k·d))` equals 0.5 at distance 0, lies in `[0.5, 1)` for every
distance `d ≥ 0`, is strictly monotonically increasing on `d ≥ 0`, and tends
to 1 as the distance grows. -/
theorem calibrateConfidence_logistic (k : ℝ) (hk : 0 < k) :
    calibrateConfidence 0 k = 1/2 ∧
      (∀ d : ℝ, 0 ≤ d → 1/2 ≤ calibrateConfidence d k ∧ calibrateConfidence d k < 1) ∧
      StrictMonoOn (fun d => calibrateConfidence d k) (Set.Ici (0 : ℝ)) ∧
      Filter.Tendsto (fun d => calibrateConfidence d k) Filter.atTop (nhds 1) := by
  have hpos : ∀ d : ℝ, 0 < 1 + Real.exp (-k * d) := by
    intro d
    positivity
  refine ⟨?_, ?_, ?_, ?_⟩
  · unfold calibrateConfidence
    norm_num
  · intro d hd
    constructor
    · have hle : Real.exp (-k * d) ≤ 1 := by
        rw [Real.exp_le_one_iff]
        nlinarith
      unfold calibrateConfidence
      rw [one_div, one_div, inv_le_inv₀ (by norm_num) (hpos d)]
      linarith
    · unfold calibrateConfidence
      rw [div_lt_one (hpos d)]
      have := Real.exp_pos (-k * d)
      linarith
  · intro a _ b _ hab
    have h1 : Real.exp (-k * b) < Real.exp (-k * a) := by
      apply Real.exp_lt_exp.mpr
      nlinarith
    show calibrateConfidence a k < calibrateConfidence b k
    unfold calibrateConfidence
    apply one_div_lt_one_div_of_lt (hpos b)
    linarith
  · have h1 : Filter.Tendsto (fun d : ℝ => k * d) Filter.atTop Filter.atTop :=
      Filter.Tendsto.const_mul_atTop hk Filter.tendsto_id
    have h2 : Filter.Tendsto (fun d : ℝ => -k * d) Filter.atTop Filter.atBot := by
      have h2' := Filter.tendsto_neg_atTop_atBot.comp h1
      have heq : (fun d : ℝ => -k * d) = (fun x : ℝ => -x) ∘ (fun d : ℝ => k * d) := by
        funext d
        simp [Function.comp, neg_mul]
      rw [heq]
      exact h2'
    have h3 : Filter.Tendsto (fun d : ℝ => Real.exp (-k * d)) Filter.atTop (nhds 0) :=
      Real.tendsto_exp_atBot.comp h2
    have h4 : Filter.Tendsto (fun d : ℝ => 1 + Real.exp (-k * d)) Filter.atTop (nhds 1) := by
      have h4' := h3.const_add (1 : ℝ)
      simpa using h4'
    have h5 : Filter.Tendsto (fun d : ℝ => 1 / (1 + Real.exp (-k * d))) Filter.atTop
        (nhds (1 / 1)) :=
      Filter.Tendsto.div tendsto_const_nhds h4 (by norm_num)
    have h6 : (fun d : ℝ => calibrateConfidence d k) =
        (fun d : ℝ => 1 / (1 + Real.exp (-k * d))) := by
      funext d
      rfl
    rw [h6]
    simpa using h5

/-- C7 witness: the logistic properties at the concrete steepness 1. -/
theorem calibrateConfidence_logistic_witness :
    (0 : ℝ) < 1 ∧
      (calibrateConfidence 0 1 = 1/2 ∧
        (∀ d : ℝ, 0 ≤ d → 1/2 ≤ calibrateConfidence d 1 ∧ calibrateConfidence d 1 < 1) ∧
        StrictMonoOn (fun d => calibrateConfidence d 1) (Set.Ici (0 : ℝ)) ∧
        Filter.Tendsto (fun d => calibrateConfidence d 1) Filter.atTop (nhds 1)) :=
  ⟨by norm_num, calibrateConfidence_logistic 1 (by norm_num)⟩

end ClawRouter
